import Mathlib

/-!
Verification of the KML request/validation pipeline of this repository
(`kml_agent.py`, `flask_server.py`).

Python strings are modelled as lists of unicode code points (`List Char`):
Python indexes, slices and measures strings by code point, so this is the
direct model.  The third-party completion service is out of scope for the
repository and is modelled as an oracle: either the reply text or the
message of the exception the call raised.
-/

set_option maxRecDepth 100000

namespace KML

instance {ε α : Type} [DecidableEq ε] [DecidableEq α] : DecidableEq (Except ε α) := fun x y =>
  match x, y with
  | .ok a, .ok b =>
    if h : a = b then isTrue (by rw [h]) else isFalse (fun hc => h (Except.ok.inj hc))
  | .error a, .error b =>
    if h : a = b then isTrue (by rw [h]) else isFalse (fun hc => h (Except.error.inj hc))
  | .ok _, .error _ => isFalse (fun hc => Except.noConfusion hc)
  | .error _, .ok _ => isFalse (fun hc => Except.noConfusion hc)

/-- Python `str`: a sequence of unicode code points. -/
abbrev PyStr := List Char

/-- Code points of a Lean string literal, used to transcribe the
Python string literals of the source. -/
def pstr (s : String) : PyStr := s.data

/-- The ASCII whitespace removed by Python `str.strip()`
(space, tab, newline, carriage return, vertical tab, form feed).
Non-ASCII unicode whitespace, which Python also strips, does not occur
in this development. -/
def isPySpace (c : Char) : Bool :=
  c = ' ' || c = '\t' || c = '\n' || c = '\r' || c = '\x0b' || c = '\x0c'

/-- Python `str.strip()`: remove whitespace from both ends. -/
def pyStrip (s : PyStr) : PyStr :=
  ((s.dropWhile isPySpace).reverse.dropWhile isPySpace).reverse

/-- Python `needle in hay` for strings: contiguous-substring test. -/
def pyContains (hay needle : PyStr) : Bool :=
  decide (needle <:+: hay)

/-- `required_elements` of `KMLAgent._is_valid_kml` (kml_agent.py:138). -/
def required_elements : List PyStr :=
  [pstr "<?xml", pstr "<kml", pstr "<Document>", pstr "</Document>", pstr "</kml>"]

/-- The geographic-content alternatives of `KMLAgent._is_valid_kml`
(kml_agent.py:152). -/
def content_elements : List PyStr :=
  [pstr "<Camera>", pstr "<LookAt>", pstr "<gx:FlyTo>", pstr "<Placemark>",
   pstr "<LineString>", pstr "<Polygon>"]

/-- `KMLAgent._is_valid_kml` (kml_agent.py:128-165): every required element
must occur as a substring, and at least one content element must occur.
The source returns False from a loop at the first missing required element
and then checks `any`; the conjunction below is that same test. -/
def is_valid_kml (kml : PyStr) : Bool :=
  required_elements.all (fun e => pyContains kml e) &&
  content_elements.any (fun e => pyContains kml e)

/-- The outcome of the completion-service call in `generate_kml`
(kml_agent.py:95-103): the reply text (`response.text`, `""` when the
service returned nothing) or the message of the exception the call raised. -/
abbrev Upstream := Except PyStr PyStr

/-- The errors `KMLAgent.generate_kml` raises: the `ValueError` raised
before the `try` block for a blank prompt, and the wrapped
`Exception('KML generation failed: ...')` raised by the `except` clause
(kml_agent.py:88-125). -/
inductive GenError where
  | invalidInput (msg : PyStr)
  | generationFailed (msg : PyStr)
deriving DecidableEq, Repr

/-- Python `str(e)` of the raised exception. -/
def GenError.message : GenError → PyStr
  | .invalidInput m => m
  | .generationFailed m => m

/-- The markdown-fence removal of `generate_kml` (kml_agent.py:108-114):
drop a leading `` ```xml `` (`kml[6:]`), then a leading `` ``` ``
(`kml[3:]`), then a trailing `` ``` `` (`kml[:-3]`). -/
def strip_fences (kml : PyStr) : PyStr :=
  let kml := if (pstr "```xml").isPrefixOf kml then kml.drop 6 else kml
  let kml := if (pstr "```").isPrefixOf kml then kml.drop 3 else kml
  if (pstr "```").isSuffixOf kml then kml.take (kml.length - 3) else kml

/-- `KMLAgent.generate_kml` (kml_agent.py:73-125), with the completion
service abstracted as the `upstream` outcome.  An empty reply raises
`Exception('No response from Gemini API')`; otherwise the reply is
stripped (`response.text.strip()`), its markdown fences are removed, the
result is stripped again (`kml.strip()`, line 116) and validated.  Every
exception of the `try` block is re-raised as
`Exception('KML generation failed: ' + str(e))`. -/
def generate_kml (prompt : PyStr) (upstream : Upstream) : Except GenError PyStr :=
  if pyStrip prompt = [] then
    .error (.invalidInput (pstr "Prompt cannot be empty"))
  else
    match upstream with
    | .error e => .error (.generationFailed (pstr "KML generation failed: " ++ e))
    | .ok text =>
      if text = [] then
        .error (.generationFailed (pstr "KML generation failed: No response from Gemini API"))
      else
        let kml := pyStrip (strip_fences (pyStrip text))
        if is_valid_kml kml then .ok kml
        else .error (.generationFailed (pstr "KML generation failed: Generated KML failed validation"))

/-! ## The decoded JSON request bodies of `flask_server.py`

`request.get_json()` yields an arbitrary decoded JSON value (`None` when the
request carries no JSON body).  JSON numbers are modelled as integers; the
repository never manipulates numeric request fields.  Decoded objects have
distinct keys, so field lookup takes the first binding. -/

inductive Json where
  | str (s : PyStr)
  | num (n : Int)
  | bool (b : Bool)
  | null
  | arr (elems : List Json)
  | obj (fields : List (PyStr × Json))

/-- Python truthiness of a decoded JSON value (`if not data: ...`). -/
def pyTruthy : Json → Bool
  | .str s => !s.isEmpty
  | .num n => decide (n ≠ 0)
  | .bool b => b
  | .null => false
  | .arr l => !l.isEmpty
  | .obj l => !l.isEmpty

/-- Python `'key' in data` on a decoded JSON value: key membership for a
dict, element equality for a list (a string equals only the equal string),
substring test for a string, `TypeError` for the non-iterable values. -/
def pyInKey (k : PyStr) : Json → Except PyStr Bool
  | .obj fields => .ok (fields.any (fun kv => kv.1 == k))
  | .arr elems => .ok (elems.any (fun j => match j with | .str s => s == k | _ => false))
  | .str s => .ok (pyContains s k)
  | .num _ => .error (pstr "argument of type 'int' is not iterable")
  | .bool _ => .error (pstr "argument of type 'bool' is not iterable")
  | .null => .error (pstr "argument of type 'NoneType' is not iterable")

/-- Python `data.get(key, default)`: field lookup on a dict, an
`AttributeError` on every other value. -/
def pyGet (k : PyStr) (dflt : Json) : Json → Except PyStr Json
  | .obj fields => .ok (((fields.find? (fun kv => kv.1 == k)).map Prod.snd).getD dflt)
  | .arr _ => .error (pstr "'list' object has no attribute 'get'")
  | .str _ => .error (pstr "'str' object has no attribute 'get'")
  | .num _ => .error (pstr "'int' object has no attribute 'get'")
  | .bool _ => .error (pstr "'bool' object has no attribute 'get'")
  | .null => .error (pstr "'NoneType' object has no attribute 'get'")

/-- Python `value.strip()` on a decoded JSON value: strips a string,
raises an `AttributeError` on everything else. -/
def pyStripAttr : Json → Except PyStr PyStr
  | .str s => .ok (pyStrip s)
  | .num _ => .error (pstr "'int' object has no attribute 'strip'")
  | .bool _ => .error (pstr "'bool' object has no attribute 'strip'")
  | .null => .error (pstr "'NoneType' object has no attribute 'strip'")
  | .arr _ => .error (pstr "'list' object has no attribute 'strip'")
  | .obj _ => .error (pstr "'dict' object has no attribute 'strip'")

mutual

/-- Python `repr` of a decoded JSON value.  Strings are rendered between
single quotes; the escaping Python applies to quotes and control characters
inside a rendered string is not reproduced (it never yields a blank or
otherwise pipeline-relevant rendering). -/
def pyRepr : Json → PyStr
  | .str s => '\'' :: (s ++ ['\''])
  | .num n => pstr (toString n)
  | .bool true => pstr "True"
  | .bool false => pstr "False"
  | .null => pstr "None"
  | .arr l => '[' :: (pyReprElems l ++ [']'])
  | .obj fs => '\x7b' :: (pyReprFields fs ++ ['\x7d'])

/-- Comma-separated `repr` of list elements. -/
def pyReprElems : List Json → PyStr
  | [] => []
  | [j] => pyRepr j
  | j :: rest => pyRepr j ++ pstr ", " ++ pyReprElems rest

/-- Comma-separated `repr` of dict entries. -/
def pyReprFields : List (PyStr × Json) → PyStr
  | [] => []
  | [(k, v)] => ('\'' :: (k ++ ['\''])) ++ pstr ": " ++ pyRepr v
  | (k, v) :: rest => ('\'' :: (k ++ ['\''])) ++ pstr ": " ++ pyRepr v ++ pstr ", " ++ pyReprFields rest

end

/-- Python `str()` of a decoded JSON value, as the batch loop applies it to
each query element (`str(prompt)`, flask_server.py:133): the identity on
strings, `repr` rendering on everything else. -/
def pyToStr : Json → PyStr
  | .str s => s
  | j => pyRepr j

/-- The loop of `generate_kml_batch` (flask_server.py:128-147): coerce each
element to text and trim it, skip it when blank, otherwise run the pipeline;
a success appends `(prompt, kml)` to `results`, an exception appends
`(prompt, str(e))` to `failed`, and the loop continues either way. -/
def generate_kml_batch (oracle : PyStr → Upstream) :
    List Json → List (PyStr × PyStr) × List (PyStr × PyStr)
  | [] => ([], [])
  | q :: rest =>
    let (results, failed) := generate_kml_batch oracle rest
    let p := pyStrip (pyToStr q)
    if p = [] then (results, failed)
    else
      match generate_kml p (oracle p) with
      | .ok kml => ((p, kml) :: results, failed)
      | .error e => (results, (p, e.message) :: failed)

/-- `jsonify({'error': msg})`. -/
def errorJson (msg : PyStr) : Json := .obj [(pstr "error", .str msg)]

/-- The `/generate-kml` handler (flask_server.py:50-93).  The pair is the
HTTP status and the JSON response body; `none` models a request without a
JSON body, for which `get_json` yields `None`. -/
def generate_kml_endpoint (oracle : PyStr → Upstream) (body : Option Json) : Nat × Json :=
  match body with
  | none => (400, errorJson (pstr "Request body must be JSON"))
  | some data =>
    if !pyTruthy data then (400, errorJson (pstr "Request body must be JSON"))
    else
      match pyGet (pstr "query") (.str []) data with
      | .error e => (500, errorJson e)
      | .ok v =>
        match pyStripAttr v with
        | .error e => (500, errorJson e)
        | .ok prompt =>
          if prompt = [] then (400, errorJson (pstr "Query parameter is required"))
          else
            match generate_kml prompt (oracle prompt) with
            | .ok kml => (200, Json.obj [(pstr "kml", .str kml)])
            | .error e => (500, errorJson e.message)

/-- The `/generate-kml-batch` handler (flask_server.py:96-159). -/
def generate_kml_batch_endpoint (oracle : PyStr → Upstream) (body : Option Json) : Nat × Json :=
  match body with
  | none => (400, errorJson (pstr "queries array is required"))
  | some data =>
    if !pyTruthy data then (400, errorJson (pstr "queries array is required"))
    else
      match pyInKey (pstr "queries") data with
      | .error e => (500, errorJson e)
      | .ok false => (400, errorJson (pstr "queries array is required"))
      | .ok true =>
        match pyGet (pstr "queries") (.arr []) data with
        | .error e => (500, errorJson e)
        | .ok (.arr queries) =>
          if queries.isEmpty then (400, errorJson (pstr "queries must be a non-empty array"))
          else
            let (results, failed) := generate_kml_batch oracle queries
            (200, Json.obj
              [(pstr "results", .arr (results.map fun r =>
                  .obj [(pstr "query", .str r.1), (pstr "kml", .str r.2)])),
               (pstr "failed", .arr (failed.map fun r =>
                  .obj [(pstr "query", .str r.1), (pstr "error", .str r.2)]))])
        | .ok _ => (400, errorJson (pstr "queries must be a non-empty array"))

/-- The `/validate-kml` handler (flask_server.py:162-193). -/
def validate_kml_endpoint (body : Option Json) : Nat × Json :=
  match body with
  | none => (400, errorJson (pstr "kml parameter is required"))
  | some data =>
    if !pyTruthy data then (400, errorJson (pstr "kml parameter is required"))
    else
      match pyInKey (pstr "kml") data with
      | .error e => (500, errorJson e)
      | .ok false => (400, errorJson (pstr "kml parameter is required"))
      | .ok true =>
        match pyGet (pstr "kml") (.str []) data with
        | .error e => (500, errorJson e)
        | .ok v =>
          match pyStripAttr v with
          | .error e => (500, errorJson e)
          | .ok kml =>
            (200, Json.obj [(pstr "valid", .bool (is_valid_kml kml)),
                            (pstr "length", .num kml.length)])

/-! ## Concrete sample data for the witnesses -/

/-- A well-formed KML document accepted by the validator. -/
def sampleKml : PyStr :=
  pstr "<?xml version=\"1.0\"?><kml><Document><Placemark></Placemark></Document></kml>"

/-! ## C1 -/

/-- C1: for every prompt that is non-empty after trimming and every
completion-service outcome, when `generate_kml` returns a string that
string passes `_is_valid_kml`; an invalid document is never returned
(the only other outcomes are raised errors). -/
theorem C1_generate_kml_never_returns_invalid (prompt : PyStr) (upstream : Upstream)
    (s : PyStr) (_hp : pyStrip prompt ≠ []) (h : generate_kml prompt upstream = .ok s) :
    is_valid_kml s = true := by
  simp only [generate_kml] at h
  split at h
  · simp at h
  · split at h
    · simp at h
    · split at h
      · simp at h
      · split at h
        · rename_i hval
          injection h with h'
          exact h' ▸ hval
        · simp at h

/-- Witness for C1 at a concrete prompt and reply. -/
theorem C1_witness : is_valid_kml sampleKml = true :=
  C1_generate_kml_never_returns_invalid (pstr "Fly to the Eiffel Tower") (.ok sampleKml)
    sampleKml (by decide) (by decide)

/-! ## C2 -/

/-- C2: `_is_valid_kml` is true exactly when the five required substrings
(the XML declaration opener, the `kml` root opening tag, `<Document>`,
`</Document>`, `</kml>`) all occur and at least one geographic-content
element occurs; in particular it is false on `""`, on a string missing one
required substring, and on a string with all required substrings but no
content element. -/
theorem C2_validator_characterization :
    (∀ s : PyStr, is_valid_kml s = true ↔
      ((pstr "<?xml" <:+: s) ∧ (pstr "<kml" <:+: s) ∧ (pstr "<Document>" <:+: s) ∧
       (pstr "</Document>" <:+: s) ∧ (pstr "</kml>" <:+: s)) ∧
      ((pstr "<Camera>" <:+: s) ∨ (pstr "<LookAt>" <:+: s) ∨ (pstr "<gx:FlyTo>" <:+: s) ∨
       (pstr "<Placemark>" <:+: s) ∨ (pstr "<LineString>" <:+: s) ∨ (pstr "<Polygon>" <:+: s))) ∧
    is_valid_kml [] = false ∧
    is_valid_kml (pstr "<?xml<kml<Document></Document><Placemark></Placemark>") = false ∧
    is_valid_kml (pstr "<?xml version=\"1.0\"?><kml><Document>x</Document></kml>") = false := by
  refine ⟨fun s => ?_, by decide, by decide, by decide⟩
  simp [is_valid_kml, required_elements, content_elements, pyContains]

/-! ## C8 -/

/-- C8: an empty completion reply makes `generate_kml` fail with the
wrapped `No response from Gemini API` exception rather than return a
value. -/
theorem C8_empty_reply_fails_upstream_empty (prompt : PyStr) (hp : pyStrip prompt ≠ []) :
    generate_kml prompt (.ok []) =
      .error (.generationFailed (pstr "KML generation failed: No response from Gemini API")) := by
  simp only [generate_kml]
  rw [if_neg hp]
  simp

/-- Witness for C8 at a concrete prompt. -/
theorem C8_witness :
    generate_kml (pstr "Fly to Tokyo") (.ok []) =
      .error (.generationFailed (pstr "KML generation failed: No response from Gemini API")) :=
  C8_empty_reply_fails_upstream_empty (pstr "Fly to Tokyo") (by decide)

/-! ## C3 and C5: the batch loop -/

/-- The success entry one query contributes to the batch `results` list:
`none` when the query is skipped as blank or fails the pipeline. -/
def batchSuccessEntry (oracle : PyStr → Upstream) (q : Json) : Option (PyStr × PyStr) :=
  let p := pyStrip (pyToStr q)
  if p = [] then none
  else
    match generate_kml p (oracle p) with
    | .ok kml => some (p, kml)
    | .error _ => none

/-- The failure entry one query contributes to the batch `failed` list. -/
def batchFailureEntry (oracle : PyStr → Upstream) (q : Json) : Option (PyStr × PyStr) :=
  let p := pyStrip (pyToStr q)
  if p = [] then none
  else
    match generate_kml p (oracle p) with
    | .ok _ => none
    | .error e => some (p, e.message)

/-- The batch loop processes every query independently: its two lists are
the order-preserving projections of the query list.  Shared by C3 and C5. -/
theorem generate_kml_batch_eq_filterMap (oracle : PyStr → Upstream) (qs : List Json) :
    generate_kml_batch oracle qs =
      (qs.filterMap (batchSuccessEntry oracle), qs.filterMap (batchFailureEntry oracle)) := by
  induction qs with
  | nil => rfl
  | cons q rest ih =>
    simp only [generate_kml_batch, ih, List.filterMap_cons, batchSuccessEntry, batchFailureEntry]
    by_cases hb : pyStrip (pyToStr q) = []
    · simp [hb]
    · cases hgen : generate_kml (pyStrip (pyToStr q)) (oracle (pyStrip (pyToStr q))) with
      | ok kml => simp [hb, hgen]
      | error e => simp [hb, hgen]

/-- C3: on a batch of N non-blank queries of which K fail, the loop yields
the success entries of the N−K succeeding queries and the failure entries
of the K failing queries, each list in input order (the `filterMap`
projections), with lengths N−K and K; every query is processed, so a
failure at one query never aborts the later ones. -/
theorem C3_batch_lengths_and_order (oracle : PyStr → Upstream) (qs : List Json)
    (h : ∀ q ∈ qs, pyStrip (pyToStr q) ≠ []) :
    (generate_kml_batch oracle qs).1 = qs.filterMap (batchSuccessEntry oracle) ∧
    (generate_kml_batch oracle qs).2 = qs.filterMap (batchFailureEntry oracle) ∧
    (generate_kml_batch oracle qs).2.length =
      (qs.filter (fun q => (batchFailureEntry oracle q).isSome)).length ∧
    (generate_kml_batch oracle qs).1.length =
      qs.length - (qs.filter (fun q => (batchFailureEntry oracle q).isSome)).length := by
  rw [generate_kml_batch_eq_filterMap]
  dsimp only
  have key : ∀ (l : List Json), (∀ q ∈ l, pyStrip (pyToStr q) ≠ []) →
      (l.filterMap (batchSuccessEntry oracle)).length +
        (l.filterMap (batchFailureEntry oracle)).length = l.length ∧
      (l.filterMap (batchFailureEntry oracle)).length =
        (l.filter (fun q => (batchFailureEntry oracle q).isSome)).length := by
    intro l
    induction l with
    | nil => intro _; exact ⟨rfl, rfl⟩
    | cons q rest ih =>
      intro hl
      have hq := hl q (List.mem_cons_self q rest)
      obtain ⟨ih1, ih2⟩ := ih (fun x hx => hl x (List.mem_cons_of_mem q hx))
      cases hg : generate_kml (pyStrip (pyToStr q)) (oracle (pyStrip (pyToStr q))) with
      | ok kml =>
        have hs : batchSuccessEntry oracle q = some (pyStrip (pyToStr q), kml) := by
          simp [batchSuccessEntry, hq, hg]
        have hf : batchFailureEntry oracle q = none := by
          simp [batchFailureEntry, hq, hg]
        simp only [List.filterMap_cons, List.filter_cons, hs, hf, Option.isSome_none,
          Bool.false_eq_true, if_false, List.length_cons]
        exact ⟨by omega, ih2⟩
      | error e =>
        have hs : batchSuccessEntry oracle q = none := by
          simp [batchSuccessEntry, hq, hg]
        have hf : batchFailureEntry oracle q =
            some (pyStrip (pyToStr q), e.message) := by
          simp [batchFailureEntry, hq, hg]
        simp only [List.filterMap_cons, List.filter_cons, hs, hf, Option.isSome_some,
          if_true, List.length_cons]
        exact ⟨by omega, by omega⟩
  obtain ⟨k1, k2⟩ := key qs h
  exact ⟨rfl, rfl, k2, by omega⟩

/-- A completion oracle for the witnesses: replies with `sampleKml` except
for the query `fail`, to which it replies with text failing validation. -/
def sampleOracle (p : PyStr) : Upstream :=
  if p = pstr "fail" then .ok (pstr "no kml here") else .ok sampleKml

/-- Witness for C3 on a concrete two-query batch with one failure. -/
theorem C3_witness :
    (generate_kml_batch sampleOracle [Json.str (pstr "Paris"), Json.str (pstr "fail")]).1 =
      [Json.str (pstr "Paris"), Json.str (pstr "fail")].filterMap
        (batchSuccessEntry sampleOracle) ∧
    (generate_kml_batch sampleOracle [Json.str (pstr "Paris"), Json.str (pstr "fail")]).2 =
      [Json.str (pstr "Paris"), Json.str (pstr "fail")].filterMap
        (batchFailureEntry sampleOracle) ∧
    (generate_kml_batch sampleOracle [Json.str (pstr "Paris"), Json.str (pstr "fail")]).2.length =
      ([Json.str (pstr "Paris"), Json.str (pstr "fail")].filter
        (fun q => (batchFailureEntry sampleOracle q).isSome)).length ∧
    (generate_kml_batch sampleOracle [Json.str (pstr "Paris"), Json.str (pstr "fail")]).1.length =
      [Json.str (pstr "Paris"), Json.str (pstr "fail")].length -
      ([Json.str (pstr "Paris"), Json.str (pstr "fail")].filter
        (fun q => (batchFailureEntry sampleOracle q).isSome)).length :=
  C3_batch_lengths_and_order sampleOracle
    [Json.str (pstr "Paris"), Json.str (pstr "fail")] (by decide)

/-! ## C5 -/

/-- Elements a filter drops contribute nothing to a `filterMap` when the
projection is `none` wherever the filter predicate is false. -/
theorem filterMap_filter_of_none {α β : Type} (f : α → Option β) (p : α → Bool)
    (h : ∀ a, p a = false → f a = none) :
    ∀ l : List α, (l.filter p).filterMap f = l.filterMap f := by
  intro l
  induction l with
  | nil => rfl
  | cons a l ih =>
    cases hpa : p a with
    | true => simp [List.filter_cons, List.filterMap_cons, hpa, ih]
    | false => simp [List.filter_cons, List.filterMap_cons, hpa, h a hpa, ih]

/-- C5: query elements that are blank after coercion to text and trimming
are silently skipped: deleting them from the batch changes neither output
list, and the two output lists together have exactly one entry per
non-blank query. -/
theorem C5_blank_queries_produce_no_entry (oracle : PyStr → Upstream) (qs : List Json) :
    generate_kml_batch oracle qs =
      generate_kml_batch oracle
        (qs.filter (fun q => !(pyStrip (pyToStr q)).isEmpty)) ∧
    (generate_kml_batch oracle qs).1.length + (generate_kml_batch oracle qs).2.length =
      (qs.filter (fun q => !(pyStrip (pyToStr q)).isEmpty)).length := by
  have hsucc : ∀ a, (!(pyStrip (pyToStr a)).isEmpty) = false →
      batchSuccessEntry oracle a = none := by
    intro a ha
    have hb : pyStrip (pyToStr a) = [] := by simpa using ha
    simp [batchSuccessEntry, hb]
  have hfail : ∀ a, (!(pyStrip (pyToStr a)).isEmpty) = false →
      batchFailureEntry oracle a = none := by
    intro a ha
    have hb : pyStrip (pyToStr a) = [] := by simpa using ha
    simp [batchFailureEntry, hb]
  constructor
  · rw [generate_kml_batch_eq_filterMap, generate_kml_batch_eq_filterMap,
        filterMap_filter_of_none _ _ hsucc, filterMap_filter_of_none _ _ hfail]
  · rw [generate_kml_batch_eq_filterMap]
    dsimp only
    induction qs with
    | nil => rfl
    | cons q rest ih =>
      by_cases hb : pyStrip (pyToStr q) = []
      · have hcond : (!(pyStrip (pyToStr q)).isEmpty) = false := by simp [hb]
        simp only [List.filterMap_cons, List.filter_cons, hsucc q hcond, hfail q hcond,
          hcond, Bool.false_eq_true, if_false]
        exact ih
      · have hcond : (!(pyStrip (pyToStr q)).isEmpty) = true := by simp [hb]
        cases hg : generate_kml (pyStrip (pyToStr q)) (oracle (pyStrip (pyToStr q))) with
        | ok kml =>
          have hs : batchSuccessEntry oracle q = some (pyStrip (pyToStr q), kml) := by
            simp [batchSuccessEntry, hb, hg]
          have hf : batchFailureEntry oracle q = none := by
            simp [batchFailureEntry, hb, hg]
          simp only [List.filterMap_cons, List.filter_cons, hs, hf, hcond, if_true,
            List.length_cons]
          omega
        | error e =>
          have hs : batchSuccessEntry oracle q = none := by
            simp [batchSuccessEntry, hb, hg]
          have hf : batchFailureEntry oracle q =
              some (pyStrip (pyToStr q), e.message) := by
            simp [batchFailureEntry, hb, hg]
          simp only [List.filterMap_cons, List.filter_cons, hs, hf, hcond, if_true,
            List.length_cons]
          omega

/-! ## C4: fence stripping -/

/-- A list whose `dropWhile` is itself has a head failing the predicate. -/
theorem head_false_of_dropWhile_eq {p : Char → Bool} {c : Char} {t : PyStr}
    (h : (c :: t).dropWhile p = c :: t) : p c = false := by
  cases hc : p c with
  | false => rfl
  | true =>
    rw [List.dropWhile_cons_of_pos (by simp [hc])] at h
    have hle := (List.dropWhile_sublist (l := t) p).length_le
    have := congrArg List.length h
    simp at this
    omega

/-- A string with non-whitespace first and last characters strips to
itself. -/
theorem pyStrip_sandwich {c d : Char} (hc : isPySpace c = false)
    (hd : isPySpace d = false) (mid : PyStr) :
    pyStrip (c :: (mid ++ [d])) = c :: (mid ++ [d]) := by
  unfold pyStrip
  rw [List.dropWhile_cons_of_neg (by simp [hc])]
  have hrev : (c :: (mid ++ [d])).reverse = d :: (mid.reverse ++ [c]) := by simp
  rw [hrev, List.dropWhile_cons_of_neg (by simp [hd]), ← hrev, List.reverse_reverse]

/-- Right-stripping removes exactly the trailing newline from
`Y ++ body ++ "\n"` when `body` ends in non-whitespace. -/
theorem right_strip_wrap (Y body : PyStr)
    (hb₂ : body.reverse.dropWhile isPySpace = body.reverse) (hnb : body ≠ []) :
    ((Y ++ (body ++ ['\n'])).reverse.dropWhile isPySpace).reverse = Y ++ body := by
  obtain ⟨d, r, hdr⟩ : ∃ d r, body.reverse = d :: r := by
    cases hb : body.reverse with
    | nil => exact absurd (List.reverse_eq_nil_iff.mp hb) hnb
    | cons d r => exact ⟨d, r, rfl⟩
  have hd : isPySpace d = false := head_false_of_dropWhile_eq (hdr ▸ hb₂)
  have hrev : (Y ++ (body ++ ['\n'])).reverse = '\n' :: (body.reverse ++ Y.reverse) := by
    simp
  rw [hrev, List.dropWhile_cons_of_pos (by decide), hdr, List.cons_append,
    List.dropWhile_cons_of_neg (by simp [hd]), ← List.cons_append, ← hdr]
  simp

/-- Stripping `"\n" ++ body ++ "\n"` yields `body` when `body` neither
starts nor ends with whitespace. -/
theorem pyStrip_newline_wrap (body : PyStr)
    (hb₁ : body.dropWhile isPySpace = body)
    (hb₂ : body.reverse.dropWhile isPySpace = body.reverse) (hnb : body ≠ []) :
    pyStrip ('\n' :: (body ++ ['\n'])) = body := by
  unfold pyStrip
  rw [List.dropWhile_cons_of_pos (by decide)]
  obtain ⟨c, t, rfl⟩ : ∃ c t, body = c :: t := by
    cases body with
    | nil => exact absurd rfl hnb
    | cons c t => exact ⟨c, t, rfl⟩
  have hc : isPySpace c = false := head_false_of_dropWhile_eq hb₁
  rw [List.cons_append, List.dropWhile_cons_of_neg (by simp [hc]), ← List.cons_append]
  simpa using right_strip_wrap [] (c :: t) hb₂ (by simp)

/-- Stripping a string with only a leading newline added. -/
theorem pyStrip_newline_left (body : PyStr)
    (hb₁ : body.dropWhile isPySpace = body)
    (hb₂ : body.reverse.dropWhile isPySpace = body.reverse) :
    pyStrip ('\n' :: body) = body := by
  unfold pyStrip
  rw [List.dropWhile_cons_of_pos (by decide), hb₁, hb₂, List.reverse_reverse]

/-- Stripping a string with only a trailing newline added. -/
theorem pyStrip_newline_right (body : PyStr)
    (hb₁ : body.dropWhile isPySpace = body)
    (hb₂ : body.reverse.dropWhile isPySpace = body.reverse) (hnb : body ≠ []) :
    pyStrip (body ++ ['\n']) = body := by
  unfold pyStrip
  obtain ⟨c, t, rfl⟩ : ∃ c t, body = c :: t := by
    cases body with
    | nil => exact absurd rfl hnb
    | cons c t => exact ⟨c, t, rfl⟩
  have hc : isPySpace c = false := head_false_of_dropWhile_eq hb₁
  rw [List.cons_append, List.dropWhile_cons_of_neg (by simp [hc]), ← List.cons_append]
  simpa using right_strip_wrap [] (c :: t) hb₂ (by simp)

/-- Stripping `"json\n" ++ body ++ "\n"` keeps the stray language tag. -/
theorem pyStrip_json_wrap (body : PyStr)
    (hb₂ : body.reverse.dropWhile isPySpace = body.reverse) (hnb : body ≠ []) :
    pyStrip (pstr "json\n" ++ (body ++ ['\n'])) = pstr "json\n" ++ body := by
  unfold pyStrip
  rw [show pstr "json\n" ++ (body ++ ['\n']) = 'j' :: (pstr "son\n" ++ (body ++ ['\n'])) from rfl,
    List.dropWhile_cons_of_neg (by decide),
    show 'j' :: (pstr "son\n" ++ (body ++ ['\n'])) = pstr "json\n" ++ (body ++ ['\n']) from rfl]
  exact right_strip_wrap (pstr "json\n") body hb₂ hnb

/-- The trailing-fence test succeeds on any string ending in `` ``` ``. -/
theorem isSuffixOf_append_self (l t : PyStr) : t.isSuffixOf (l ++ t) = true := by
  simp [List.isSuffixOf_iff_suffix]

/-- `kml[:-3]` removes exactly a trailing `` ``` ``. -/
theorem take_append_fence (X : PyStr) :
    (X ++ pstr "```").take ((X ++ pstr "```").length - 3) = X := by
  rw [List.length_append, show (pstr "```").length = 3 from rfl, Nat.add_sub_cancel]
  exact List.take_left' rfl

/-- `strip_fences` on a reply fenced as `` ```xml ``…`` ``` ``. -/
theorem strip_fences_xml (body : PyStr) :
    strip_fences (pstr "```xml\n" ++ (body ++ pstr "\n```")) =
      pstr "\n" ++ (body ++ pstr "\n") := by
  have hc1 : ((pstr "```xml").isPrefixOf (pstr "```xml\n" ++ (body ++ pstr "\n```"))) = true := rfl
  have hdrop : (pstr "```xml\n" ++ (body ++ pstr "\n```")).drop 6 =
      pstr "\n" ++ (body ++ pstr "\n```") := by
    rw [show pstr "```xml\n" = pstr "```xml" ++ pstr "\n" from rfl, List.append_assoc]
    exact List.drop_left' rfl
  have hc2 : ((pstr "```").isPrefixOf (pstr "\n" ++ (body ++ pstr "\n```"))) = false := rfl
  have hshape : pstr "\n" ++ (body ++ pstr "\n```") =
      (pstr "\n" ++ (body ++ pstr "\n")) ++ pstr "```" := by
    rw [show pstr "\n```" = pstr "\n" ++ pstr "```" from rfl]
    simp [List.append_assoc]
  have hc2' : ¬ (((pstr "```").isPrefixOf (pstr "\n" ++ (body ++ pstr "\n```"))) = true) := by
    simp [hc2]
  simp only [strip_fences]
  rw [if_pos hc1, hdrop, if_neg hc2', hshape,
    if_pos (isSuffixOf_append_self (pstr "\n" ++ (body ++ pstr "\n")) (pstr "```")),
    take_append_fence (pstr "\n" ++ (body ++ pstr "\n"))]

/-- `strip_fences` on a reply fenced with bare `` ``` `` markers. -/
theorem strip_fences_bare (body : PyStr) :
    strip_fences (pstr "```\n" ++ (body ++ pstr "\n```")) =
      pstr "\n" ++ (body ++ pstr "\n") := by
  have hc1 : ((pstr "```xml").isPrefixOf (pstr "```\n" ++ (body ++ pstr "\n```"))) = false := rfl
  have hc2 : ((pstr "```").isPrefixOf (pstr "```\n" ++ (body ++ pstr "\n```"))) = true := rfl
  have hdrop : (pstr "```\n" ++ (body ++ pstr "\n```")).drop 3 =
      pstr "\n" ++ (body ++ pstr "\n```") := by
    rw [show pstr "```\n" = pstr "```" ++ pstr "\n" from rfl, List.append_assoc]
    exact List.drop_left' rfl
  have hshape : pstr "\n" ++ (body ++ pstr "\n```") =
      (pstr "\n" ++ (body ++ pstr "\n")) ++ pstr "```" := by
    rw [show pstr "\n```" = pstr "\n" ++ pstr "```" from rfl]
    simp [List.append_assoc]
  have hc1' : ¬ (((pstr "```xml").isPrefixOf (pstr "```\n" ++ (body ++ pstr "\n```"))) = true) := by
    simp [hc1]
  simp only [strip_fences]
  rw [if_neg hc1', if_pos hc2, hdrop, hshape,
    if_pos (isSuffixOf_append_self (pstr "\n" ++ (body ++ pstr "\n")) (pstr "```")),
    take_append_fence (pstr "\n" ++ (body ++ pstr "\n"))]

/-- `strip_fences` on a reply fenced with a non-`xml` language tag: only
the backticks are dropped, the tag text survives. -/
theorem strip_fences_json (body : PyStr) :
    strip_fences (pstr "```json\n" ++ (body ++ pstr "\n```")) =
      pstr "json\n" ++ (body ++ pstr "\n") := by
  have hc1 : ((pstr "```xml").isPrefixOf (pstr "```json\n" ++ (body ++ pstr "\n```"))) = false := rfl
  have hc2 : ((pstr "```").isPrefixOf (pstr "```json\n" ++ (body ++ pstr "\n```"))) = true := rfl
  have hdrop : (pstr "```json\n" ++ (body ++ pstr "\n```")).drop 3 =
      pstr "json\n" ++ (body ++ pstr "\n```") := by
    rw [show pstr "```json\n" = pstr "```" ++ pstr "json\n" from rfl, List.append_assoc]
    exact List.drop_left' rfl
  have hshape : pstr "json\n" ++ (body ++ pstr "\n```") =
      (pstr "json\n" ++ (body ++ pstr "\n")) ++ pstr "```" := by
    rw [show pstr "\n```" = pstr "\n" ++ pstr "```" from rfl]
    simp [List.append_assoc]
  have hc1' : ¬ (((pstr "```xml").isPrefixOf (pstr "```json\n" ++ (body ++ pstr "\n```"))) = true) := by
    simp [hc1]
  simp only [strip_fences]
  rw [if_neg hc1', if_pos hc2, hdrop, hshape,
    if_pos (isSuffixOf_append_self (pstr "json\n" ++ (body ++ pstr "\n")) (pstr "```")),
    take_append_fence (pstr "json\n" ++ (body ++ pstr "\n"))]

/-- A completion reply fenced with the `json` language tag around a valid
document. -/
def fencedJsonReply : PyStr :=
  pstr "```json\n<?xml version=\"1.0\"?><kml><Document><Placemark></Placemark></Document></kml>\n```"

/-- Counterexample to C4 as stated: for a fenced reply whose language tag
is `json`, only the backticks are stripped — the returned string still
carries the tag text `json` and is not the fence's inner document. -/
theorem C4_counterexample :
    generate_kml (pstr "Show Paris") (.ok fencedJsonReply) =
      .ok (pstr "json\n<?xml version=\"1.0\"?><kml><Document><Placemark></Placemark></Document></kml>") ∧
    pstr "json\n<?xml version=\"1.0\"?><kml><Document><Placemark></Placemark></Document></kml>" ≠
      pstr "<?xml version=\"1.0\"?><kml><Document><Placemark></Placemark></Document></kml>" :=
  ⟨by decide, by decide⟩

/-- C4 (amended): `generate_kml` strips a leading `` ```xml `` marker, or a
bare leading `` ``` ``, and a trailing `` ``` ``, then trims, passes the
result to validation and returns it unchanged on success; for a language
tag other than `xml` only the backticks are stripped and the tag text
remains in the content.  The leading and trailing markers are also handled
independently: a reply with only a leading fence, or only a trailing one,
loses exactly that marker.  `body` is the fenced document, assumed
non-empty with no surrounding whitespace. -/
theorem C4_amended_fence_stripping (prompt body : PyStr)
    (hp : pyStrip prompt ≠ [])
    (hb₁ : body.dropWhile isPySpace = body)
    (hb₂ : body.reverse.dropWhile isPySpace = body.reverse)
    (hnb : body ≠ []) :
    generate_kml prompt (.ok (pstr "```xml\n" ++ (body ++ pstr "\n```"))) =
      (if is_valid_kml body then .ok body
       else .error (.generationFailed
         (pstr "KML generation failed: Generated KML failed validation"))) ∧
    generate_kml prompt (.ok (pstr "```\n" ++ (body ++ pstr "\n```"))) =
      (if is_valid_kml body then .ok body
       else .error (.generationFailed
         (pstr "KML generation failed: Generated KML failed validation"))) ∧
    generate_kml prompt (.ok (pstr "```json\n" ++ (body ++ pstr "\n```"))) =
      (if is_valid_kml (pstr "json\n" ++ body) then .ok (pstr "json\n" ++ body)
       else .error (.generationFailed
         (pstr "KML generation failed: Generated KML failed validation"))) ∧
    (((pstr "```").isSuffixOf (pstr "\n" ++ body)) = false →
      generate_kml prompt (.ok (pstr "```xml\n" ++ body)) =
        (if is_valid_kml body then .ok body
         else .error (.generationFailed
           (pstr "KML generation failed: Generated KML failed validation")))) ∧
    (((pstr "```xml").isPrefixOf (body ++ pstr "\n```")) = false →
      ((pstr "```").isPrefixOf (body ++ pstr "\n```")) = false →
      generate_kml prompt (.ok (body ++ pstr "\n```")) =
        (if is_valid_kml body then .ok body
         else .error (.generationFailed
           (pstr "KML generation failed: Generated KML failed validation")))) := by
  refine ⟨?_, ?_, ?_, ?_, ?_⟩
  · have hne : pstr "```xml\n" ++ (body ++ pstr "\n```") ≠ [] := by
      rw [show pstr "```xml\n" ++ (body ++ pstr "\n```") =
        '\x60' :: (pstr "``xml\n" ++ (body ++ pstr "\n```")) from rfl]
      simp
    have hshape : pstr "```xml\n" ++ (body ++ pstr "\n```") =
        '\x60' :: ((pstr "``xml\n" ++ (body ++ pstr "\n``")) ++ ['\x60']) := by
      rw [show pstr "```xml\n" = '\x60' :: pstr "``xml\n" from rfl,
        show pstr "\n```" = pstr "\n``" ++ ['\x60'] from rfl]
      simp [List.append_assoc]
    have houter : pyStrip (pstr "```xml\n" ++ (body ++ pstr "\n```")) =
        pstr "```xml\n" ++ (body ++ pstr "\n```") := by
      rw [hshape]
      exact pyStrip_sandwich (by decide) (by decide) _
    simp only [generate_kml]
    rw [if_neg hp, if_neg hne, houter, strip_fences_xml body,
      show pstr "\n" ++ (body ++ pstr "\n") = '\n' :: (body ++ ['\n']) from rfl,
      pyStrip_newline_wrap body hb₁ hb₂ hnb]
  · have hne : pstr "```\n" ++ (body ++ pstr "\n```") ≠ [] := by
      rw [show pstr "```\n" ++ (body ++ pstr "\n```") =
        '\x60' :: (pstr "``\n" ++ (body ++ pstr "\n```")) from rfl]
      simp
    have hshape : pstr "```\n" ++ (body ++ pstr "\n```") =
        '\x60' :: ((pstr "``\n" ++ (body ++ pstr "\n``")) ++ ['\x60']) := by
      rw [show pstr "```\n" = '\x60' :: pstr "``\n" from rfl,
        show pstr "\n```" = pstr "\n``" ++ ['\x60'] from rfl]
      simp [List.append_assoc]
    have houter : pyStrip (pstr "```\n" ++ (body ++ pstr "\n```")) =
        pstr "```\n" ++ (body ++ pstr "\n```") := by
      rw [hshape]
      exact pyStrip_sandwich (by decide) (by decide) _
    simp only [generate_kml]
    rw [if_neg hp, if_neg hne, houter, strip_fences_bare body,
      show pstr "\n" ++ (body ++ pstr "\n") = '\n' :: (body ++ ['\n']) from rfl,
      pyStrip_newline_wrap body hb₁ hb₂ hnb]
  · have hne : pstr "```json\n" ++ (body ++ pstr "\n```") ≠ [] := by
      rw [show pstr "```json\n" ++ (body ++ pstr "\n```") =
        '\x60' :: (pstr "``json\n" ++ (body ++ pstr "\n```")) from rfl]
      simp
    have hshape : pstr "```json\n" ++ (body ++ pstr "\n```") =
        '\x60' :: ((pstr "``json\n" ++ (body ++ pstr "\n``")) ++ ['\x60']) := by
      rw [show pstr "```json\n" = '\x60' :: pstr "``json\n" from rfl,
        show pstr "\n```" = pstr "\n``" ++ ['\x60'] from rfl]
      simp [List.append_assoc]
    have houter : pyStrip (pstr "```json\n" ++ (body ++ pstr "\n```")) =
        pstr "```json\n" ++ (body ++ pstr "\n```") := by
      rw [hshape]
      exact pyStrip_sandwich (by decide) (by decide) _
    simp only [generate_kml]
    rw [if_neg hp, if_neg hne, houter, strip_fences_json body,
      show pstr "json\n" ++ (body ++ pstr "\n") = pstr "json\n" ++ (body ++ ['\n']) from rfl,
      pyStrip_json_wrap body hb₂ hnb]
  · intro hts
    obtain ⟨d, r, hdr⟩ : ∃ d r, body.reverse = d :: r := by
      cases hb : body.reverse with
      | nil => exact absurd (List.reverse_eq_nil_iff.mp hb) hnb
      | cons d r => exact ⟨d, r, rfl⟩
    have hd : isPySpace d = false := head_false_of_dropWhile_eq (hdr ▸ hb₂)
    have hbody : body = r.reverse ++ [d] := by
      rw [← List.reverse_reverse body, hdr]
      simp
    have hne : pstr "```xml\n" ++ body ≠ [] := by
      rw [show pstr "```xml\n" ++ body = '\x60' :: (pstr "``xml\n" ++ body) from rfl]
      simp
    have hshape : pstr "```xml\n" ++ body =
        '\x60' :: ((pstr "``xml\n" ++ r.reverse) ++ [d]) := by
      conv_lhs => rw [hbody]
      rw [show pstr "```xml\n" = '\x60' :: pstr "``xml\n" from rfl]
      simp [List.append_assoc]
    have houter : pyStrip (pstr "```xml\n" ++ body) = pstr "```xml\n" ++ body := by
      rw [hshape]
      exact pyStrip_sandwich (by decide) hd _
    have hsf : strip_fences (pstr "```xml\n" ++ body) = pstr "\n" ++ body := by
      have hc1 : ((pstr "```xml").isPrefixOf (pstr "```xml\n" ++ body)) = true := rfl
      have hdrop : (pstr "```xml\n" ++ body).drop 6 = pstr "\n" ++ body := by
        rw [show pstr "```xml\n" = pstr "```xml" ++ pstr "\n" from rfl, List.append_assoc]
        exact List.drop_left' rfl
      have hc2' : ¬(((pstr "```").isPrefixOf (pstr "\n" ++ body)) = true) := by
        rw [show ((pstr "```").isPrefixOf (pstr "\n" ++ body)) = false from rfl]
        simp
      have hts' : ¬(((pstr "```").isSuffixOf (pstr "\n" ++ body)) = true) := by
        simp [hts]
      simp only [strip_fences]
      rw [if_pos hc1, hdrop, if_neg hc2', if_neg hts']
    simp only [generate_kml]
    rw [if_neg hp, if_neg hne, houter, hsf,
      show pstr "\n" ++ body = '\n' :: body from rfl,
      pyStrip_newline_left body hb₁ hb₂]
  · intro hl1 hl2
    obtain ⟨c, t, hct⟩ : ∃ c t, body = c :: t := by
      cases body with
      | nil => exact absurd rfl hnb
      | cons c t => exact ⟨c, t, rfl⟩
    have hc : isPySpace c = false := head_false_of_dropWhile_eq (hct ▸ hb₁)
    have hne : body ++ pstr "\n```" ≠ [] := by
      rw [hct, List.cons_append]
      simp
    have hshape : body ++ pstr "\n```" = c :: ((t ++ pstr "\n``") ++ ['\x60']) := by
      conv_lhs => rw [hct]
      rw [show pstr "\n```" = pstr "\n``" ++ ['\x60'] from rfl]
      simp [List.append_assoc]
    have houter : pyStrip (body ++ pstr "\n```") = body ++ pstr "\n```" := by
      rw [hshape]
      exact pyStrip_sandwich hc (by decide) _
    have hsf : strip_fences (body ++ pstr "\n```") = body ++ ['\n'] := by
      have hl1' : ¬(((pstr "```xml").isPrefixOf (body ++ pstr "\n```")) = true) := by
        simp [hl1]
      have hl2' : ¬(((pstr "```").isPrefixOf (body ++ pstr "\n```")) = true) := by
        simp [hl2]
      have hshape2 : body ++ pstr "\n```" = (body ++ ['\n']) ++ pstr "```" := by
        rw [show pstr "\n```" = ['\n'] ++ pstr "```" from rfl]
        simp [List.append_assoc]
      simp only [strip_fences]
      rw [if_neg hl1', if_neg hl2', hshape2,
        if_pos (isSuffixOf_append_self (body ++ ['\n']) (pstr "```")),
        take_append_fence (body ++ ['\n'])]
    simp only [generate_kml]
    rw [if_neg hp, if_neg hne, houter, hsf, pyStrip_newline_right body hb₁ hb₂ hnb]

/-- Witness for the amended C4 at a concrete fenced document. -/
theorem C4_witness :
    generate_kml (pstr "Fly to Paris") (.ok (pstr "```xml\n" ++ (sampleKml ++ pstr "\n```"))) =
      (if is_valid_kml sampleKml then .ok sampleKml
       else .error (.generationFailed
         (pstr "KML generation failed: Generated KML failed validation"))) :=
  (C4_amended_fence_stripping (pstr "Fly to Paris") sampleKml
    (by decide) (by decide) (by decide) (by decide)).1

/-! ## C9 -/

/-- C9: `_is_valid_kml` is monotone under string extension: a valid string
occurring contiguously inside a larger string keeps the larger string
valid, because every check is a substring-presence test. -/
theorem C9_validator_monotone_under_superstring (s t : PyStr)
    (hv : is_valid_kml s = true) (h : s <:+: t) : is_valid_kml t = true := by
  simp [is_valid_kml, required_elements, content_elements, pyContains] at hv ⊢
  obtain ⟨⟨h1, h2, h3, h4, h5⟩, hc⟩ := hv
  refine ⟨⟨h1.trans h, h2.trans h, h3.trans h, h4.trans h, h5.trans h⟩, ?_⟩
  rcases hc with hc | hc | hc | hc | hc | hc
  · exact Or.inl (hc.trans h)
  · exact Or.inr (Or.inl (hc.trans h))
  · exact Or.inr (Or.inr (Or.inl (hc.trans h)))
  · exact Or.inr (Or.inr (Or.inr (Or.inl (hc.trans h))))
  · exact Or.inr (Or.inr (Or.inr (Or.inr (Or.inl (hc.trans h)))))
  · exact Or.inr (Or.inr (Or.inr (Or.inr (Or.inr (hc.trans h)))))

/-- Witness for C9 at a concrete valid string and superstring. -/
theorem C9_witness : is_valid_kml ('\n' :: sampleKml) = true :=
  C9_validator_monotone_under_superstring sampleKml ('\n' :: sampleKml)
    (by decide) (by decide)

/-! ## C6: failure kinds at the HTTP boundary -/

/-- Counterexample to C6 as stated: the empty-reply failure and the
validation failure both map to 500, but their response bodies differ —
the caller can distinguish the kinds, so there is no single shared
message. -/
theorem C6_counterexample :
    generate_kml_endpoint (fun _ => .ok [])
        (some (.obj [(pstr "query", .str (pstr "Fly to Paris"))])) =
      (500, errorJson (pstr "KML generation failed: No response from Gemini API")) ∧
    generate_kml_endpoint (fun _ => .ok (pstr "nonsense"))
        (some (.obj [(pstr "query", .str (pstr "Fly to Paris"))])) =
      (500, errorJson (pstr "KML generation failed: Generated KML failed validation")) ∧
    pstr "KML generation failed: No response from Gemini API" ≠
      pstr "KML generation failed: Generated KML failed validation" :=
  ⟨rfl, rfl, by decide⟩

/-- C6 (amended): the three pipeline failure kinds — empty upstream reply,
failed validation, and an exception from the completion call — all surface
as a 500 response whose message carries the shared generic prefix
`KML generation failed: `; the suffix differs per kind, so the kinds stay
distinguishable in the body.  `q` is a non-blank already-trimmed query. -/
theorem C6_amended_failures_fold_to_500 (q : PyStr)
    (hq : pyStrip q = q) (hq' : q ≠ []) :
    generate_kml_endpoint (fun _ => .ok [])
        (some (.obj [(pstr "query", .str q)])) =
      (500, errorJson (pstr "KML generation failed: " ++ pstr "No response from Gemini API")) ∧
    (∀ t, t ≠ [] → is_valid_kml (pyStrip (strip_fences (pyStrip t))) = false →
      generate_kml_endpoint (fun _ => .ok t)
          (some (.obj [(pstr "query", .str q)])) =
        (500, errorJson (pstr "KML generation failed: " ++ pstr "Generated KML failed validation"))) ∧
    (∀ e, generate_kml_endpoint (fun _ => .error e)
          (some (.obj [(pstr "query", .str q)])) =
        (500, errorJson (pstr "KML generation failed: " ++ e))) := by
  have hpq : pyStrip q ≠ [] := by rw [hq]; exact hq'
  have hstep : ∀ (o : PyStr → Upstream),
      generate_kml_endpoint o (some (.obj [(pstr "query", .str q)])) =
        (if pyStrip q = [] then (400, errorJson (pstr "Query parameter is required"))
         else
           match generate_kml (pyStrip q) (o (pyStrip q)) with
           | .ok kml => (200, Json.obj [(pstr "kml", .str kml)])
           | .error e => (500, errorJson e.message)) :=
    fun _ => rfl
  refine ⟨?_, ?_, ?_⟩
  · have hgen : generate_kml (pyStrip q) ((fun _ => (.ok [] : Upstream)) (pyStrip q)) =
        .error (.generationFailed (pstr "KML generation failed: No response from Gemini API")) := by
      simp only [generate_kml]
      rw [if_neg (by rw [hq]; exact hpq)]
      simp
    rw [hstep, if_neg hpq, hgen]
    rfl
  · intro t ht hval
    have hgen : generate_kml (pyStrip q) ((fun _ => (.ok t : Upstream)) (pyStrip q)) =
        .error (.generationFailed (pstr "KML generation failed: Generated KML failed validation")) := by
      simp only [generate_kml]
      rw [if_neg (by rw [hq]; exact hpq), if_neg ht, if_neg (by simp [hval])]
    rw [hstep, if_neg hpq, hgen]
    rfl
  · intro e
    have hgen : generate_kml (pyStrip q) ((fun _ => (.error e : Upstream)) (pyStrip q)) =
        .error (.generationFailed (pstr "KML generation failed: " ++ e)) := by
      simp only [generate_kml]
      rw [if_neg (by rw [hq]; exact hpq)]
    rw [hstep, if_neg hpq, hgen]
    rfl

/-- Witness for the amended C6 at concrete queries and failures. -/
theorem C6_witness :
    generate_kml_endpoint (fun _ => .ok [])
        (some (.obj [(pstr "query", .str (pstr "Fly to Rome"))])) =
      (500, errorJson (pstr "KML generation failed: " ++ pstr "No response from Gemini API")) ∧
    generate_kml_endpoint (fun _ => .ok (pstr "oops"))
        (some (.obj [(pstr "query", .str (pstr "Fly to Rome"))])) =
      (500, errorJson (pstr "KML generation failed: " ++ pstr "Generated KML failed validation")) ∧
    generate_kml_endpoint (fun _ => .error (pstr "boom"))
        (some (.obj [(pstr "query", .str (pstr "Fly to Rome"))])) =
      (500, errorJson (pstr "KML generation failed: " ++ pstr "boom")) :=
  ⟨(C6_amended_failures_fold_to_500 (pstr "Fly to Rome") (by decide) (by decide)).1,
   (C6_amended_failures_fold_to_500 (pstr "Fly to Rome") (by decide) (by decide)).2.1
     (pstr "oops") (by decide) (by decide),
   (C6_amended_failures_fold_to_500 (pstr "Fly to Rome") (by decide) (by decide)).2.2
     (pstr "boom")⟩

/-! ## C7: batch request-shape validation -/

/-- Counterexample to C7 as stated: a JSON body that is the number 5 has
no `queries` field, yet the endpoint answers 500 (the membership test
raises a `TypeError`), not the claimed 400. -/
theorem C7_counterexample :
    generate_kml_batch_endpoint (fun _ => .ok sampleKml) (some (.num 5)) =
      (500, errorJson (pstr "argument of type 'int' is not iterable")) ∧
    (generate_kml_batch_endpoint (fun _ => .ok sampleKml) (some (.num 5))).1 ≠ 400 :=
  ⟨rfl, by decide⟩

/-- C7 (amended): for JSON-object request bodies the endpoint returns 400
with an error message — for any oracle, so without invoking the pipeline —
whenever the object lacks a `queries` field, `queries` is not an array, or
the array is empty; a truthy non-object body instead produces a 500 from
the failing membership test or attribute lookup. -/
theorem C7_amended_shape_errors (o : PyStr → Upstream) (fields : List (PyStr × Json)) :
    ((fields.any fun kv => kv.1 == pstr "queries") = false →
      generate_kml_batch_endpoint o (some (.obj fields)) =
        (400, errorJson (pstr "queries array is required"))) ∧
    (∀ k v, fields.find? (fun kv => kv.1 == pstr "queries") = some (k, v) →
      (∀ l, v ≠ .arr l) →
      generate_kml_batch_endpoint o (some (.obj fields)) =
        (400, errorJson (pstr "queries must be a non-empty array"))) ∧
    (∀ k, fields.find? (fun kv => kv.1 == pstr "queries") = some (k, .arr []) →
      generate_kml_batch_endpoint o (some (.obj fields)) =
        (400, errorJson (pstr "queries must be a non-empty array"))) := by
  refine ⟨?_, ?_, ?_⟩
  · intro h
    cases fields with
    | nil => rfl
    | cons f fs =>
      simp [generate_kml_batch_endpoint, pyTruthy, pyInKey, h]
  · intro k v hfind hnotarr
    have hany : (fields.any fun kv => kv.1 == pstr "queries") = true := by
      rw [List.any_eq_true]
      exact ⟨(k, v), List.mem_of_find?_eq_some hfind,
        List.find?_some (p := fun (kv : PyStr × Json) => kv.1 == pstr "queries") hfind⟩
    cases fields with
    | nil => simp at hfind
    | cons f fs =>
      simp only [generate_kml_batch_endpoint, pyTruthy, pyInKey, pyGet, hany, hfind,
        List.isEmpty_cons, Bool.not_false, if_false, Option.map_some, Option.getD_some]
      cases v with
      | arr l => exact absurd rfl (hnotarr l)
      | str s => rfl
      | num n => rfl
      | bool b => rfl
      | null => rfl
      | obj l2 => rfl
  · intro k hfind
    have hany : (fields.any fun kv => kv.1 == pstr "queries") = true := by
      rw [List.any_eq_true]
      exact ⟨(k, .arr []), List.mem_of_find?_eq_some hfind,
        List.find?_some (p := fun (kv : PyStr × Json) => kv.1 == pstr "queries") hfind⟩
    cases fields with
    | nil => simp at hfind
    | cons f fs =>
      simp [generate_kml_batch_endpoint, pyTruthy, pyInKey, pyGet, hany, hfind]

/-! ## C10: validate-kml trims first -/

/-- C10: the `/validate-kml` handler strips the supplied string before
anything else: the `valid` flag is `_is_valid_kml` of the trimmed string
and `length` is the trimmed string's length, not the submitted one's. -/
theorem C10_validate_reports_on_trimmed (fields : List (PyStr × Json)) (k s : PyStr)
    (h : fields.find? (fun kv => kv.1 == pstr "kml") = some (k, .str s)) :
    validate_kml_endpoint (some (.obj fields)) =
      (200, Json.obj [(pstr "valid", .bool (is_valid_kml (pyStrip s))),
                      (pstr "length", .num ((pyStrip s).length : Int))]) := by
  have hany : (fields.any fun kv => kv.1 == pstr "kml") = true := by
    rw [List.any_eq_true]
    exact ⟨(k, .str s), List.mem_of_find?_eq_some h,
      List.find?_some (p := fun (kv : PyStr × Json) => kv.1 == pstr "kml") h⟩
  cases fields with
  | nil => simp at h
  | cons f fs =>
    simp [validate_kml_endpoint, pyTruthy, pyInKey, pyGet, pyStripAttr, hany, h]

/-- Witness for C10: a three-character submission whose reported length is
that of the one-character trimmed string. -/
theorem C10_witness :
    validate_kml_endpoint (some (.obj [(pstr "kml", .str (pstr " x "))])) =
      (200, Json.obj [(pstr "valid", .bool (is_valid_kml (pyStrip (pstr " x ")))),
                      (pstr "length", .num ((pyStrip (pstr " x ")).length : Int))]) :=
  C10_validate_reports_on_trimmed [(pstr "kml", .str (pstr " x "))]
    (pstr "kml") (pstr " x ") rfl

end KML
